import Mathlib

/-!
Shallow embedding of the sprite / shadow-OAM portion of
`src/gbdk-lib/include/nes/nes.h` (gbdk-2020, NES target).

All machine bytes are modelled as `Nat` values; conversion to `uint8_t`
(which C performs on every assignment to a byte field and on every byte
parameter at the call) is reduction modulo 256, and conversion to
`uint16_t` is reduction modulo 65536.  Signed `int8_t` deltas are
modelled as `Int` values in `[-128, 127]`.  The inline functions of the
header are straight-line assignments, so each becomes a pure state
transformer on an explicit state record.
-/

/-- Conversion of a value to `uint8_t`: reduction modulo 256. -/
def u8 (n : Nat) : Nat := n % 256

/-- Conversion of a value to `uint16_t`: reduction modulo 65536. -/
def u16 (n : Nat) : Nat := n % 65536

/-- `uint8_t` compound assignment `b += d` with `d` a signed `int8_t`:
both operands are promoted to `int`, added, and the result converted
back to `uint8_t`, i.e. reduced modulo 256 (C conversion to an unsigned
type).  `Int.emod` with positive modulus yields the nonnegative
representative, so `toNat` is exact. -/
def byteAddWrap (b : Nat) (d : Int) : Nat := (((b : Int) + d) % 256).toNat

/-- `struct OAM_item_t` of nes.h: one shadow-OAM entry, four byte
fields in hardware order `y`, `tile`, `prop`, `x`. -/
structure OAM_item_t where
  y : Nat
  tile : Nat
  prop : Nat
  x : Nat
deriving DecidableEq, Repr

/-- The mutable state the header's sprite operations touch: the 64-entry
`shadow_OAM` array, the DMA source-page byte `_shadow_OAM_base`
(field `shadow_OAM_base` here), and the hardware-register shadows the
header declares (`shadow_PPUMASK`, `shadow_PPUCTRL`, `bkg_scroll_x`,
`bkg_scroll_y`). -/
structure NESState where
  shadow_OAM : Fin 64 → OAM_item_t
  shadow_OAM_base : Nat
  shadow_PPUMASK : Nat
  shadow_PPUCTRL : Nat
  bkg_scroll_x : Nat
  bkg_scroll_y : Nat

/-- A concrete all-zero state, used to evaluate the operations on
explicit inputs. -/
def zeroState : NESState :=
  { shadow_OAM := fun _ => ⟨0, 0, 0, 0⟩
    shadow_OAM_base := 0
    shadow_PPUMASK := 0
    shadow_PPUCTRL := 0
    bkg_scroll_x := 0
    bkg_scroll_y := 0 }

/-- Store `e` as shadow-OAM entry `nb` (the effect of a C write through
`&shadow_OAM[nb]`); all other state is untouched. -/
def updEntry (s : NESState) (nb : Fin 64) (e : OAM_item_t) : NESState :=
  { s with shadow_OAM := Function.update s.shadow_OAM nb e }

/-- `inline void set_sprite_tile(uint8_t nb, uint8_t tile)`:
`shadow_OAM[nb].tile = tile;`. -/
def set_sprite_tile (nb : Fin 64) (tile : Nat) (s : NESState) : NESState :=
  updEntry s nb { s.shadow_OAM nb with tile := u8 tile }

/-- `inline uint8_t get_sprite_tile(uint8_t nb)`:
`return shadow_OAM[nb].tile;`. -/
def get_sprite_tile (nb : Fin 64) (s : NESState) : Nat :=
  (s.shadow_OAM nb).tile

/-- `inline void set_sprite_prop(uint8_t nb, uint8_t prop)`:
`shadow_OAM[nb].prop = prop;`. -/
def set_sprite_prop (nb : Fin 64) (prop : Nat) (s : NESState) : NESState :=
  updEntry s nb { s.shadow_OAM nb with prop := u8 prop }

/-- `inline uint8_t get_sprite_prop(uint8_t nb)`:
`return shadow_OAM[nb].prop;`. -/
def get_sprite_prop (nb : Fin 64) (s : NESState) : Nat :=
  (s.shadow_OAM nb).prop

/-- `inline void move_sprite(uint8_t nb, uint8_t x, uint8_t y)`:
`itm->y=y, itm->x=x;` on `itm = &shadow_OAM[nb]`. -/
def move_sprite (nb : Fin 64) (x y : Nat) (s : NESState) : NESState :=
  updEntry s nb { s.shadow_OAM nb with y := u8 y, x := u8 x }

/-- `inline void scroll_sprite(uint8_t nb, int8_t x, int8_t y)`:
`itm->y+=y, itm->x+=x;` — wraparound byte addition of a signed delta. -/
def scroll_sprite (nb : Fin 64) (x y : Int) (s : NESState) : NESState :=
  let itm := s.shadow_OAM nb
  updEntry s nb { itm with y := byteAddWrap itm.y y, x := byteAddWrap itm.x x }

/-- `inline void hide_sprite(uint8_t nb)`: `shadow_OAM[nb].y = 240;`. -/
def hide_sprite (nb : Fin 64) (s : NESState) : NESState :=
  updEntry s nb { s.shadow_OAM nb with y := 240 }

/-- `inline void SET_SHADOW_OAM_ADDRESS(void * address)`:
`_shadow_OAM_base = (uint8_t)((uint16_t)address >> 8);`. -/
def SET_SHADOW_OAM_ADDRESS (address : Nat) (s : NESState) : NESState :=
  { s with shadow_OAM_base := u8 (u16 address >>> 8) }

/-- `#define ENABLE_OAM_DMA _shadow_OAM_base = (uint8_t)((uint16_t)&shadow_OAM >> 8)`.
The link-time address of the default `shadow_OAM` array is not fixed by
the header, so it is passed as the parameter `shadow_OAM_addr`. -/
def ENABLE_OAM_DMA (shadow_OAM_addr : Nat) (s : NESState) : NESState :=
  { s with shadow_OAM_base := u8 (u16 shadow_OAM_addr >>> 8) }

/-- `#define DISABLE_OAM_DMA _shadow_OAM_base = 0`. -/
def DISABLE_OAM_DMA (s : NESState) : NESState :=
  { s with shadow_OAM_base := 0 }

/-- C2: set then get of the sprite tile round-trips. -/
theorem C2_set_get_tile_roundtrip (s : NESState) (nb : Fin 64) (t : Nat)
    (ht : t < 256) :
    get_sprite_tile nb (set_sprite_tile nb t s) = t := by
  simp [get_sprite_tile, set_sprite_tile, updEntry, u8, Nat.mod_eq_of_lt ht]

/-- C2 witness: entry 7, tile 0xAB, on the zero state. -/
theorem C2_set_get_tile_roundtrip_witness :
    get_sprite_tile 7 (set_sprite_tile 7 0xAB zeroState) = 0xAB :=
  C2_set_get_tile_roundtrip zeroState 7 0xAB (by decide)

/-- C3: `scroll_sprite` adds the signed deltas to the byte positions with
wraparound modulo 256: from position `(x, y)` the entry moves to
`((x+dx) mod 256, (y+dy) mod 256)` (nonnegative representative). -/
theorem C3_scroll_sprite_wraps (s : NESState) (nb : Fin 64) (dx dy : Int)
    (hdx1 : -128 ≤ dx) (hdx2 : dx ≤ 127) (hdy1 : -128 ≤ dy) (hdy2 : dy ≤ 127)
    (hx : (s.shadow_OAM nb).x < 256) (hy : (s.shadow_OAM nb).y < 256) :
    ((scroll_sprite nb dx dy s).shadow_OAM nb).x
        = ((((s.shadow_OAM nb).x : Int) + dx) % 256).toNat ∧
    ((scroll_sprite nb dx dy s).shadow_OAM nb).y
        = ((((s.shadow_OAM nb).y : Int) + dy) % 256).toNat := by
  simp [scroll_sprite, updEntry, byteAddWrap]

/-- C3 witness: entry 2 of the zero state, deltas (-5, -1): the position
wraps from (0,0) to (251, 255). -/
theorem C3_scroll_sprite_wraps_witness :
    ((scroll_sprite 2 (-5) (-1) zeroState).shadow_OAM 2).x
        = ((((zeroState.shadow_OAM 2).x : Int) + (-5)) % 256).toNat ∧
    ((scroll_sprite 2 (-5) (-1) zeroState).shadow_OAM 2).y
        = ((((zeroState.shadow_OAM 2).y : Int) + (-1)) % 256).toNat :=
  C3_scroll_sprite_wraps zeroState 2 (-5) (-1) (by decide) (by decide)
    (by decide) (by decide) (by decide) (by decide)

/-- C4: `hide_sprite` sets the entry's vertical position to 240 and leaves
its tile, property flags and horizontal position unchanged; in particular
`get_sprite_prop` returns the same value before and after. -/
theorem C4_hide_sprite_only_y (s : NESState) (nb : Fin 64) :
    ((hide_sprite nb s).shadow_OAM nb).y = 240 ∧
    ((hide_sprite nb s).shadow_OAM nb).tile = (s.shadow_OAM nb).tile ∧
    ((hide_sprite nb s).shadow_OAM nb).prop = (s.shadow_OAM nb).prop ∧
    ((hide_sprite nb s).shadow_OAM nb).x = (s.shadow_OAM nb).x ∧
    get_sprite_prop nb (hide_sprite nb s) = get_sprite_prop nb s := by
  simp [hide_sprite, updEntry, get_sprite_prop]

/-- C6: `move_sprite` is absolute placement: afterwards the entry's
horizontal position is `x` and its vertical position is `y`, whatever the
previous position was, and tile and property flags are unchanged. -/
theorem C6_move_sprite_absolute (s : NESState) (nb : Fin 64) (x y : Nat)
    (hx : x < 256) (hy : y < 256) :
    ((move_sprite nb x y s).shadow_OAM nb).x = x ∧
    ((move_sprite nb x y s).shadow_OAM nb).y = y ∧
    ((move_sprite nb x y s).shadow_OAM nb).tile = (s.shadow_OAM nb).tile ∧
    ((move_sprite nb x y s).shadow_OAM nb).prop = (s.shadow_OAM nb).prop := by
  simp [move_sprite, updEntry, u8, Nat.mod_eq_of_lt hx, Nat.mod_eq_of_lt hy]

/-- C6 witness: move entry 5 of the zero state to (200, 100). -/
theorem C6_move_sprite_absolute_witness :
    ((move_sprite 5 200 100 zeroState).shadow_OAM 5).x = 200 ∧
    ((move_sprite 5 200 100 zeroState).shadow_OAM 5).y = 100 ∧
    ((move_sprite 5 200 100 zeroState).shadow_OAM 5).tile
        = (zeroState.shadow_OAM 5).tile ∧
    ((move_sprite 5 200 100 zeroState).shadow_OAM 5).prop
        = (zeroState.shadow_OAM 5).prop :=
  C6_move_sprite_absolute zeroState 5 200 100 (by decide) (by decide)

/-- C7: property flags are stored unmodified: set then get of the sprite
property byte round-trips with no bit masked, cleared or reinterpreted. -/
theorem C7_set_get_prop_roundtrip (s : NESState) (nb : Fin 64) (flags : Nat)
    (hf : flags < 256) :
    get_sprite_prop nb (set_sprite_prop nb flags s) = flags := by
  simp [get_sprite_prop, set_sprite_prop, updEntry, u8, Nat.mod_eq_of_lt hf]

/-- C7 witness: entry 0, flags 0xF5 (all of priority/flip/palette bits mixed). -/
theorem C7_set_get_prop_roundtrip_witness :
    get_sprite_prop 0 (set_sprite_prop 0 0xF5 zeroState) = 0xF5 :=
  C7_set_get_prop_roundtrip zeroState 0 0xF5 (by decide)

/-- States `s` (before) and `s'` (after) agree on shadow-OAM entry `m`, on
the DMA configuration byte `_shadow_OAM_base`, and on every hardware
register shadow the header declares. -/
def sameOutside (s s' : NESState) (m : Fin 64) : Prop :=
  s'.shadow_OAM m = s.shadow_OAM m ∧
  s'.shadow_OAM_base = s.shadow_OAM_base ∧
  s'.shadow_PPUMASK = s.shadow_PPUMASK ∧
  s'.shadow_PPUCTRL = s.shadow_PPUCTRL ∧
  s'.bkg_scroll_x = s.bkg_scroll_x ∧
  s'.bkg_scroll_y = s.bkg_scroll_y

/-- C5: each shadow-buffer mutator applied to entry `nb` changes only that
entry: every other entry `m`, the byte `_shadow_OAM_base`, and all
hardware-register state are unchanged, for all five mutators. -/
theorem C5_mutators_local (s : NESState) (nb m : Fin 64)
    (t p x y : Nat) (dx dy : Int) (hm : m ≠ nb) :
    sameOutside s (set_sprite_tile nb t s) m ∧
    sameOutside s (set_sprite_prop nb p s) m ∧
    sameOutside s (move_sprite nb x y s) m ∧
    sameOutside s (scroll_sprite nb dx dy s) m ∧
    sameOutside s (hide_sprite nb s) m := by
  simp [sameOutside, set_sprite_tile, set_sprite_prop, move_sprite,
    scroll_sprite, hide_sprite, updEntry, Function.update_noteq hm]

/-- C5 witness: mutate entry 3 with concrete arguments and observe entry
4, the DMA byte and the registers unchanged on the zero state. -/
theorem C5_mutators_local_witness :
    sameOutside zeroState (set_sprite_tile 3 0x41 zeroState) 4 ∧
    sameOutside zeroState (set_sprite_prop 3 0x22 zeroState) 4 ∧
    sameOutside zeroState (move_sprite 3 17 91 zeroState) 4 ∧
    sameOutside zeroState (scroll_sprite 3 (-3) 7 zeroState) 4 ∧
    sameOutside zeroState (hide_sprite 3 zeroState) 4 :=
  C5_mutators_local zeroState 3 4 0x41 0x22 17 91 (-3) 7 (by decide)

/-- C1 counterexample: with the default `shadow_OAM` array at address
0x0200 and the 256-byte-aligned buffer `p` at 0x0300,
`SET_SHADOW_OAM_ADDRESS(p)` followed by `ENABLE_OAM_DMA` leaves
`_shadow_OAM_base` = 2, the page of the default buffer, not the page 3
of `p`: the enable macro overwrites the configured source. -/
theorem C1_counterexample :
    (ENABLE_OAM_DMA 0x0200 (SET_SHADOW_OAM_ADDRESS 0x0300 zeroState)).shadow_OAM_base
        ≠ 0x0300 / 256 ∧
    (ENABLE_OAM_DMA 0x0200 (SET_SHADOW_OAM_ADDRESS 0x0300 zeroState)).shadow_OAM_base
        = 0x0200 / 256 := by
  constructor
  · simp [ENABLE_OAM_DMA, SET_SHADOW_OAM_ADDRESS, u8, u16]
  · simp [ENABLE_OAM_DMA, SET_SHADOW_OAM_ADDRESS, u8, u16]

/-- C1 amended: with the calls in the working order — `enable()` first
(or never), then `set_buffer_address(p)` — the DMA source configuration
identifies the 256-byte-aligned buffer `p`: `_shadow_OAM_base * 256 = p`. -/
theorem C1_amended_enable_then_set (s : NESState) (d p : Nat)
    (hp : p < 65536) (ha : p % 256 = 0) :
    (SET_SHADOW_OAM_ADDRESS p (ENABLE_OAM_DMA d s)).shadow_OAM_base * 256 = p := by
  have h1 : u16 p = p := Nat.mod_eq_of_lt hp
  have h2 : p / 256 < 256 := Nat.div_lt_of_lt_mul (by omega)
  simp [SET_SHADOW_OAM_ADDRESS, ENABLE_OAM_DMA, u8, u16, h1,
    Nat.shiftRight_eq_div_pow, Nat.mod_eq_of_lt h2]
  omega

/-- C1 amended witness: enable with the default buffer at 0x0200, then
repoint to the aligned buffer 0x0300; the configuration identifies 0x0300. -/
theorem C1_amended_enable_then_set_witness :
    (SET_SHADOW_OAM_ADDRESS 0x0300 (ENABLE_OAM_DMA 0x0200 zeroState)).shadow_OAM_base * 256
        = 0x0300 :=
  C1_amended_enable_then_set zeroState 0x0200 0x0300 (by decide) (by decide)

/-- C8: `SET_SHADOW_OAM_ADDRESS` keeps only the high byte of the 16-bit
pointer: the resulting `_shadow_OAM_base` is `p / 256` (of the 16-bit
value); two pointers with equal high bytes yield identical states; and a
pointer with low byte zero is identified exactly by the configuration. -/
theorem C8_set_address_high_byte (s : NESState) (p q : Nat) :
    (SET_SHADOW_OAM_ADDRESS p s).shadow_OAM_base = p % 65536 / 256 ∧
    (p % 65536 / 256 = q % 65536 / 256 →
      SET_SHADOW_OAM_ADDRESS p s = SET_SHADOW_OAM_ADDRESS q s) ∧
    (p < 65536 → p % 256 = 0 →
      (SET_SHADOW_OAM_ADDRESS p s).shadow_OAM_base * 256 = p) := by
  have key : ∀ r : Nat, u8 (u16 r >>> 8) = r % 65536 / 256 := by
    intro r
    have hlt : r % 65536 / 256 < 256 := by omega
    simp [u8, u16, Nat.shiftRight_eq_div_pow, Nat.mod_eq_of_lt hlt]
  refine ⟨?_, ?_, ?_⟩
  · simp [SET_SHADOW_OAM_ADDRESS, key]
  · intro h
    simp [SET_SHADOW_OAM_ADDRESS, key, h]
  · intro h1 h2
    simp [SET_SHADOW_OAM_ADDRESS, key, Nat.mod_eq_of_lt h1]
    omega

/-- C8 witness: pointer 0x1234 configures page 0x12; 0x1234 and 0x12FF
give identical states; the aligned pointer 0x1200 is identified exactly. -/
theorem C8_set_address_high_byte_witness :
    (SET_SHADOW_OAM_ADDRESS 0x1234 zeroState).shadow_OAM_base = 0x12 ∧
    SET_SHADOW_OAM_ADDRESS 0x1234 zeroState = SET_SHADOW_OAM_ADDRESS 0x12FF zeroState ∧
    (SET_SHADOW_OAM_ADDRESS 0x1200 zeroState).shadow_OAM_base * 256 = 0x1200 :=
  ⟨(C8_set_address_high_byte zeroState 0x1234 0x1234).1,
   (C8_set_address_high_byte zeroState 0x1234 0x12FF).2.1 (by decide),
   (C8_set_address_high_byte zeroState 0x1200 0x1200).2.2 (by decide) (by decide)⟩

/-- Record of a tile-pattern upload: which VRAM region (background or
sprite) received which tiles.  The bodies of `set_bkg_data` and
`set_sprite_data` are not under src/ (the header only declares them), so
an upload is modelled abstractly as the call that was issued. -/
inductive TileDataCall where
  | bkg (first_tile : Nat) (nb_tiles : Nat) (data : List Nat)
  | spr (first_tile : Nat) (nb_tiles : Nat) (data : List Nat)
deriving DecidableEq, Repr

/-- Modelled from the spec: `void set_bkg_data(uint8_t first_tile,
uint8_t nb_tiles, const uint8_t *data)` has no body under src/; it is
modelled as the background-region upload it performs, with both byte
parameters converted to `uint8_t` at the call. -/
def set_bkg_data (first_tile nb_tiles : Nat) (data : List Nat) : TileDataCall :=
  TileDataCall.bkg (u8 first_tile) (u8 nb_tiles) data

/-- Modelled from the spec: `void set_sprite_data(uint8_t first_tile,
uint8_t nb_tiles, const uint8_t *data)` has no body under src/; it is
modelled as the sprite-region upload it performs, with both byte
parameters converted to `uint8_t` at the call. -/
def set_sprite_data (first_tile nb_tiles : Nat) (data : List Nat) : TileDataCall :=
  TileDataCall.spr (u8 first_tile) (u8 nb_tiles) data

/-- `inline void set_native_tile_data(uint16_t first_tile, uint8_t
nb_tiles, const uint8_t *data)`: `if (first_tile < 256)
set_bkg_data(first_tile, nb_tiles, data); else
set_sprite_data(first_tile - 256, nb_tiles, data);`. -/
def set_native_tile_data (first_tile nb_tiles : Nat) (data : List Nat) : TileDataCall :=
  if u16 first_tile < 256 then
    set_bkg_data (u16 first_tile) nb_tiles data
  else
    set_sprite_data (u16 first_tile - 256) nb_tiles data

/-- C9: `set_native_tile_data` dispatches on `first_tile`: below 256 it
is `set_bkg_data` on the same arguments, at or above 256 it is
`set_sprite_data` on `first_tile - 256`; the boundary value 256 writes
sprite tile 0, not background data. -/
theorem C9_native_tile_data_dispatch (first_tile nb_tiles : Nat)
    (data : List Nat) (hft : first_tile < 65536) :
    set_native_tile_data first_tile nb_tiles data
        = (if first_tile < 256 then set_bkg_data first_tile nb_tiles data
           else set_sprite_data (first_tile - 256) nb_tiles data) ∧
    set_native_tile_data 256 nb_tiles data = set_sprite_data 0 nb_tiles data := by
  have h1 : u16 first_tile = first_tile := Nat.mod_eq_of_lt hft
  constructor
  · simp [set_native_tile_data, h1]
  · simp [set_native_tile_data, u16]

/-- C9 witness: `first_tile` 100 goes to the background region,
`first_tile` 300 goes to the sprite region at tile 44, and the boundary
256 goes to sprite tile 0. -/
theorem C9_native_tile_data_dispatch_witness :
    set_native_tile_data 100 4 [1, 2] = set_bkg_data 100 4 [1, 2] ∧
    set_native_tile_data 300 4 [1, 2] = set_sprite_data 44 4 [1, 2] ∧
    set_native_tile_data 256 4 [1, 2] = set_sprite_data 0 4 [1, 2] :=
  ⟨by have h := (C9_native_tile_data_dispatch 100 4 [1, 2] (by decide)).1
      simpa using h,
   by have h := (C9_native_tile_data_dispatch 300 4 [1, 2] (by decide)).1
      simpa using h,
   (C9_native_tile_data_dispatch 256 4 [1, 2] (by decide)).2⟩

/-- Record of a background tile-map write, together with the value of the
relevant global tile-offset variable in effect while the write ran. -/
inductive BkgMapCall where
  | tiles (x y w h : Nat) (src : List Nat) (offset : Nat)
  | submap (x y w h : Nat) (src : List Nat) (map_w : Nat) (offset : Nat)
deriving DecidableEq, Repr

/-- The state the background tile-map writers touch: the globals
`_map_tile_offset` and `_submap_tile_offset` declared by the header, and
the sequence of tile-map writes issued so far. -/
structure MapState where
  map_tile_offset : Nat
  submap_tile_offset : Nat
  calls : List BkgMapCall
deriving DecidableEq, Repr

/-- Modelled from the spec: `void set_bkg_tiles(uint8_t x, uint8_t y,
uint8_t w, uint8_t h, const uint8_t *tiles)` has no body under src/; per
the header's documentation of `set_bkg_based_tiles`, the value of
`_map_tile_offset` is added to each tile ID it writes, so the write is
recorded together with the offset in effect when it runs. -/
def set_bkg_tiles (x y w h : Nat) (tiles : List Nat) (s : MapState) : MapState :=
  { s with calls :=
      s.calls ++ [BkgMapCall.tiles (u8 x) (u8 y) (u8 w) (u8 h) tiles s.map_tile_offset] }

/-- Modelled from the spec: `void set_bkg_submap(uint8_t x, uint8_t y,
uint8_t w, uint8_t h, const uint8_t *map, uint8_t map_w)` has no body
under src/; per the header's documentation of `set_bkg_based_submap`,
the value of `_submap_tile_offset` is added to each tile ID it writes,
so the write is recorded with the offset in effect when it runs. -/
def set_bkg_submap (x y w h : Nat) (map : List Nat) (map_w : Nat) (s : MapState) : MapState :=
  { s with calls :=
      s.calls ++ [BkgMapCall.submap (u8 x) (u8 y) (u8 w) (u8 h) map (u8 map_w)
        s.submap_tile_offset] }

/-- `inline void set_bkg_based_tiles(...)`: `_map_tile_offset =
base_tile; set_bkg_tiles(x, y, w, h, tiles); _map_tile_offset = 0;`. -/
def set_bkg_based_tiles (x y w h : Nat) (tiles : List Nat) (base_tile : Nat)
    (s : MapState) : MapState :=
  let s1 := { s with map_tile_offset := u8 base_tile }
  let s2 := set_bkg_tiles x y w h tiles s1
  { s2 with map_tile_offset := 0 }

/-- `inline void set_bkg_based_submap(...)`: `_submap_tile_offset =
base_tile; set_bkg_submap(x, y, w, h, map, map_w); _submap_tile_offset = 0;`. -/
def set_bkg_based_submap (x y w h : Nat) (map : List Nat) (map_w base_tile : Nat)
    (s : MapState) : MapState :=
  let s1 := { s with submap_tile_offset := u8 base_tile }
  let s2 := set_bkg_submap x y w h map map_w s1
  { s2 with submap_tile_offset := 0 }

/-- C10: starting from both global tile offsets zero, each based-map call
performs its inner write with the offset equal to `base_tile` and
returns with both offsets zero again, and a plain `set_bkg_tiles` or
`set_bkg_submap` in such a state writes with offset 0 and leaves both
offsets zero. -/
theorem C10_tile_offsets_zero_outside (s : MapState) (x y w h map_w base : Nat)
    (src : List Nat) (hb : base < 256)
    (h1 : s.map_tile_offset = 0) (h2 : s.submap_tile_offset = 0) :
    ((set_bkg_based_tiles x y w h src base s).map_tile_offset = 0 ∧
     (set_bkg_based_tiles x y w h src base s).submap_tile_offset = 0 ∧
     (set_bkg_based_tiles x y w h src base s).calls
        = s.calls ++ [BkgMapCall.tiles (u8 x) (u8 y) (u8 w) (u8 h) src base]) ∧
    ((set_bkg_based_submap x y w h src map_w base s).map_tile_offset = 0 ∧
     (set_bkg_based_submap x y w h src map_w base s).submap_tile_offset = 0 ∧
     (set_bkg_based_submap x y w h src map_w base s).calls
        = s.calls ++ [BkgMapCall.submap (u8 x) (u8 y) (u8 w) (u8 h) src (u8 map_w) base]) ∧
    ((set_bkg_tiles x y w h src s).map_tile_offset = 0 ∧
     (set_bkg_tiles x y w h src s).submap_tile_offset = 0 ∧
     (set_bkg_tiles x y w h src s).calls
        = s.calls ++ [BkgMapCall.tiles (u8 x) (u8 y) (u8 w) (u8 h) src 0]) ∧
    ((set_bkg_submap x y w h src map_w s).map_tile_offset = 0 ∧
     (set_bkg_submap x y w h src map_w s).submap_tile_offset = 0 ∧
     (set_bkg_submap x y w h src map_w s).calls
        = s.calls ++ [BkgMapCall.submap (u8 x) (u8 y) (u8 w) (u8 h) src (u8 map_w) 0]) := by
  simp [set_bkg_based_tiles, set_bkg_based_submap, set_bkg_tiles,
    set_bkg_submap, h1, h2, u8, Nat.mod_eq_of_lt hb]

/-- C10 witness: from the empty state with both offsets zero, a based
tiles write at base 7 and a based submap write at base 7 record offset
7 and restore both offsets to zero; plain writes record offset 0. -/
theorem C10_tile_offsets_zero_outside_witness :
    ((set_bkg_based_tiles 1 2 3 4 [9] 7 ⟨0, 0, []⟩).map_tile_offset = 0 ∧
     (set_bkg_based_tiles 1 2 3 4 [9] 7 ⟨0, 0, []⟩).submap_tile_offset = 0 ∧
     (set_bkg_based_tiles 1 2 3 4 [9] 7 ⟨0, 0, []⟩).calls
        = [] ++ [BkgMapCall.tiles (u8 1) (u8 2) (u8 3) (u8 4) [9] 7]) ∧
    ((set_bkg_based_submap 1 2 3 4 [9] 5 7 ⟨0, 0, []⟩).map_tile_offset = 0 ∧
     (set_bkg_based_submap 1 2 3 4 [9] 5 7 ⟨0, 0, []⟩).submap_tile_offset = 0 ∧
     (set_bkg_based_submap 1 2 3 4 [9] 5 7 ⟨0, 0, []⟩).calls
        = [] ++ [BkgMapCall.submap (u8 1) (u8 2) (u8 3) (u8 4) [9] (u8 5) 7]) ∧
    ((set_bkg_tiles 1 2 3 4 [9] ⟨0, 0, []⟩).map_tile_offset = 0 ∧
     (set_bkg_tiles 1 2 3 4 [9] ⟨0, 0, []⟩).submap_tile_offset = 0 ∧
     (set_bkg_tiles 1 2 3 4 [9] ⟨0, 0, []⟩).calls
        = [] ++ [BkgMapCall.tiles (u8 1) (u8 2) (u8 3) (u8 4) [9] 0]) ∧
    ((set_bkg_submap 1 2 3 4 [9] 5 ⟨0, 0, []⟩).map_tile_offset = 0 ∧
     (set_bkg_submap 1 2 3 4 [9] 5 ⟨0, 0, []⟩).submap_tile_offset = 0 ∧
     (set_bkg_submap 1 2 3 4 [9] 5 ⟨0, 0, []⟩).calls
        = [] ++ [BkgMapCall.submap (u8 1) (u8 2) (u8 3) (u8 4) [9] (u8 5) 0]) :=
  C10_tile_offsets_zero_outside ⟨0, 0, []⟩ 1 2 3 4 5 7 [9] (by decide) rfl rfl
